import Mathlib

/-!
Shallow embedding of `src/server.js` (segundoplano-backend): an Express +
Mongoose telemetry API.  Request-body values are modelled by `JSVal` (JS
numbers are modelled as integers; every behaviour the routes depend on —
truthiness, `typeof x === "number"`, `=== undefined`, Mongoose casts — is
over integers here).  The Mongo collections are modelled as lists inside a
`Store`; `find().sort({createdAt:-1})` is modelled by insertion sort on the
`createdAt` key, and `findOne(filter).sort({createdAt:-1})` by the head of
the sorted filtered list.  Mongoose schema validation (`required`, `min: 0`,
`enum`) runs at save time and surfaces as a store error (HTTP 500 in the
route's catch), exactly as in the source.  Error-message strings are
abbreviated stand-ins for Mongoose's messages.
-/

namespace SegundoPlano

/-- A JSON/JS value as seen by a route handler after destructuring
`req.body` (a missing key destructures to `undefined`).  JS numbers are
modelled as integers. -/
inductive JSVal where
  | vnum (n : Int)
  | vstr (s : String)
  | vbool (b : Bool)
  | vnull
  | vundef
deriving DecidableEq

/-- JS truthiness, as used by the `if (!x || ...)` guards in the handlers:
`0`, `""`, `false`, `null` and `undefined` are falsy.  (`NaN` is not
representable in the integer model.) -/
def truthy : JSVal → Bool
  | .vnum n => n != 0
  | .vstr s => s != ""
  | .vbool b => b
  | .vnull => false
  | .vundef => false

/-- The `typeof v === "number"` test used by the `/ritmo` and `/brujula`
handlers. -/
def isNumberVal : JSVal → Bool
  | .vnum _ => true
  | _ => false

/-- The `v === undefined` test used by the `/ubicacion` handler. -/
def isUndef : JSVal → Bool
  | .vundef => true
  | _ => false

/-- Whitespace for the model of string trimming (space, tab, LF, CR). -/
def isSpaceChar (c : Char) : Bool :=
  c == ' ' || c == '\t' || c == '\n' || c == '\r'

/-- Model of JS string trimming (the `trim: true` schema option on
`nombre`): leading and trailing whitespace removed. -/
def trimString (s : String) : String :=
  String.mk (((s.data.dropWhile isSpaceChar).reverse.dropWhile isSpaceChar).reverse)

/-- Decimal digit test on a character, by code point. -/
def isDigitChar (c : Char) : Bool :=
  48 ≤ c.toNat && c.toNat ≤ 57

/-- The natural number denoted by a list of decimal digits. -/
def natOfDigits (cs : List Char) : Nat :=
  cs.foldl (fun n c => n * 10 + (c.toNat - 48)) 0

/-- The integer denoted by a string, when it is an optionally-signed run of
decimal digits; `none` otherwise. -/
def intOfChars : List Char → Option Int
  | [] => none
  | '-' :: rest =>
    if rest.isEmpty then none
    else if rest.all isDigitChar then some (-(natOfDigits rest : Int)) else none
  | cs => if cs.all isDigitChar then some (natOfDigits cs) else none

/-- Mongoose cast of a body value to a schema `Number` path, followed by the
`required: true` check: numbers pass through, numeric strings are cast
(modelled for integer literals; a non-numeric string raises `CastError`),
booleans cast to 0/1, and `null`/`undefined` fail the `required` check. -/
def castNumber : JSVal → Except String Int
  | .vnum n => .ok n
  | .vstr s =>
    match intOfChars s.data with
    | some n => .ok n
    | none => .error "CastError: Number"
  | .vbool b => .ok (if b then 1 else 0)
  | .vnull => .error "Path is required"
  | .vundef => .error "Path is required"

/-- Mongoose cast of a body value to a schema `String` path: strings pass
through, numbers and booleans are stringified, `null`/`undefined` fail the
`required` check. -/
def castString : JSVal → Except String String
  | .vstr s => .ok s
  | .vnum n => .ok (toString n)
  | .vbool b => .ok (if b then "true" else "false")
  | .vnull => .error "Path is required"
  | .vundef => .error "Path is required"

/-- A persisted `Conductor` document (schema `conductorSchema`;
`createdAt` is the `timestamps: true` creation stamp). -/
structure Conductor where
  nombre : String
  edad : Int
  sexo : String
  turno : String
  enfermedad : String
  createdAt : Nat
deriving DecidableEq

/-- A persisted `Ritmo` (heart-rate) document. -/
structure Ritmo where
  conductorId : String
  bpm : Int
  fecha : Nat
  createdAt : Nat
deriving DecidableEq

/-- A persisted `Brujula` (compass) document. -/
structure Brujula where
  conductorId : String
  compass : Int
  fecha : Nat
  createdAt : Nat
deriving DecidableEq

/-- A persisted `Ubicacion` (location) document. -/
structure Ubicacion where
  conductorId : String
  latitud : Int
  longitud : Int
  fecha : Nat
  createdAt : Nat
deriving DecidableEq

/-- The four Mongo collections, each in insertion order. -/
structure Store where
  conductores : List Conductor
  ritmos : List Ritmo
  brujulas : List Brujula
  ubicaciones : List Ubicacion
deriving DecidableEq

/-- The empty database. -/
def emptyStore : Store :=
  { conductores := [], ritmos := [], brujulas := [], ubicaciones := [] }

/-- The ordering used by `.sort({ createdAt: -1 })`: larger `createdAt`
first. -/
def createdDesc {α : Type} (key : α → Nat) (a b : α) : Prop :=
  key b ≤ key a

instance {α : Type} (key : α → Nat) : DecidableRel (createdDesc key) :=
  fun a b => inferInstanceAs (Decidable (key b ≤ key a))

instance {α : Type} (key : α → Nat) : IsTotal α (createdDesc key) :=
  ⟨fun a b => (Nat.le_total (key a) (key b)).symm⟩

instance {α : Type} (key : α → Nat) : IsTrans α (createdDesc key) :=
  ⟨fun _ _ _ hab hbc => Nat.le_trans hbc hab⟩

/-- Model of Mongo's `.sort({ createdAt: -1 })` applied to a result set. -/
def sortByCreatedDesc {α : Type} (key : α → Nat) (l : List α) : List α :=
  List.insertionSort (createdDesc key) l

/-- Model of `Model.findOne({ conductorId }).sort({ createdAt: -1 })`:
the head of the filtered collection sorted by `createdAt` descending. -/
def findOneLatest {α : Type} (key : α → Nat) (p : α → Bool) (l : List α) :
    Option α :=
  (sortByCreatedDesc key (l.filter p)).head?

/-- Outcome of a POST route: `res.status(400)`, `res.status(201)` with the
saved document, or the `catch` branch `res.status(500)`. -/
inductive PostResult (α : Type) where
  | badRequest (error : String)
  | created (message : String) (data : α)
  | storeError (error : String)
deriving DecidableEq

/-- HTTP status of a POST outcome. -/
def PostResult.status {α : Type} : PostResult α → Nat
  | .badRequest _ => 400
  | .created _ _ => 201
  | .storeError _ => 500

/-- Outcome of a `.../latest` GET route: 404 or 200 with the document. -/
inductive GetResult (α : Type) where
  | notFound (error : String)
  | ok (data : α)
deriving DecidableEq

/-- HTTP status of a GET outcome. -/
def GetResult.status {α : Type} : GetResult α → Nat
  | .notFound _ => 404
  | .ok _ => 200

/-- Saving a new `Conductor`: Mongoose casts each path and runs the schema
validators (`trim` then `required` on `nombre`, `min: 0` on `edad`, the
two-value `enum` on `sexo`, `required` on `turno` and `enfermedad`). -/
def saveConductor (st : Store) (now : Nat)
    (nombre edad sexo turno enfermedad : JSVal) :
    Except String (Conductor × Store) :=
  match castString nombre, castNumber edad, castString sexo,
      castString turno, castString enfermedad with
  | .ok n, .ok e, .ok sx, .ok t, .ok enf =>
    if trimString n = "" then
      .error "Conductor validation failed: nombre is required"
    else if e < 0 then
      .error "Conductor validation failed: edad is less than minimum"
    else if sx ≠ "Masculino" ∧ sx ≠ "Femenino" then
      .error "Conductor validation failed: sexo is not a valid enum value"
    else if t = "" then
      .error "Conductor validation failed: turno is required"
    else if enf = "" then
      .error "Conductor validation failed: enfermedad is required"
    else
      let c : Conductor :=
        { nombre := trimString n, edad := e, sexo := sx, turno := t,
          enfermedad := enf, createdAt := now }
      .ok (c, { st with conductores := st.conductores ++ [c] })
  | .error e, _, _, _, _ => .error e
  | _, .error e, _, _, _ => .error e
  | _, _, .error e, _, _ => .error e
  | _, _, _, .error e, _ => .error e
  | _, _, _, _, .error e => .error e

/-- Saving a new `Ritmo` reading: `conductorId` is cast to a required
string, `bpm` to a number with `min: 0`; `fecha` defaults to now. -/
def saveRitmo (st : Store) (now : Nat) (conductorId bpm : JSVal) :
    Except String (Ritmo × Store) :=
  match castString conductorId, castNumber bpm with
  | .ok cid, .ok b =>
    if cid = "" then
      .error "Ritmo validation failed: conductorId is required"
    else if b < 0 then
      .error "Ritmo validation failed: bpm is less than minimum"
    else
      let r : Ritmo := { conductorId := cid, bpm := b, fecha := now, createdAt := now }
      .ok (r, { st with ritmos := st.ritmos ++ [r] })
  | .error e, _ => .error e
  | _, .error e => .error e

/-- Saving a new `Brujula` reading: no range constraint on `compass`. -/
def saveBrujula (st : Store) (now : Nat) (conductorId compass : JSVal) :
    Except String (Brujula × Store) :=
  match castString conductorId, castNumber compass with
  | .ok cid, .ok c =>
    if cid = "" then
      .error "Brujula validation failed: conductorId is required"
    else
      let r : Brujula := { conductorId := cid, compass := c, fecha := now, createdAt := now }
      .ok (r, { st with brujulas := st.brujulas ++ [r] })
  | .error e, _ => .error e
  | _, .error e => .error e

/-- Saving a new `Ubicacion` reading: both coordinates are cast to required
numbers, with no bounds validation. -/
def saveUbicacion (st : Store) (now : Nat) (conductorId latitud longitud : JSVal) :
    Except String (Ubicacion × Store) :=
  match castString conductorId, castNumber latitud, castNumber longitud with
  | .ok cid, .ok la, .ok lo =>
    if cid = "" then
      .error "Ubicacion validation failed: conductorId is required"
    else
      let r : Ubicacion :=
        { conductorId := cid, latitud := la, longitud := lo, fecha := now, createdAt := now }
      .ok (r, { st with ubicaciones := st.ubicaciones ++ [r] })
  | .error e, _, _ => .error e
  | _, .error e, _ => .error e
  | _, _, .error e => .error e

/-- Handler of `POST /conductor`: rejects with 400 when any of the five
destructured fields is falsy (`if (!nombre || !edad || !sexo || !turno ||
!enfermedad)`), otherwise saves and answers 201, with the `catch` branch
mapped to 500. -/
def postConductor (st : Store) (now : Nat)
    (nombre edad sexo turno enfermedad : JSVal) : PostResult Conductor × Store :=
  if !truthy nombre || !truthy edad || !truthy sexo || !truthy turno || !truthy enfermedad then
    (.badRequest "Todos los campos son requeridos", st)
  else
    match saveConductor st now nombre edad sexo turno enfermedad with
    | .ok (c, st') => (.created "Conductor creado" c, st')
    | .error e => (.storeError e, st)

/-- Handler of `POST /ritmo`: rejects with 400 when `conductorId` is falsy
or `typeof bpm !== "number"`. -/
def postRitmo (st : Store) (now : Nat) (conductorId bpm : JSVal) :
    PostResult Ritmo × Store :=
  if !truthy conductorId || !isNumberVal bpm then
    (.badRequest "conductorId y bpm son requeridos", st)
  else
    match saveRitmo st now conductorId bpm with
    | .ok (r, st') => (.created "Ritmo guardado" r, st')
    | .error e => (.storeError e, st)

/-- Handler of `POST /brujula`: rejects with 400 when `conductorId` is
falsy or `typeof compass !== "number"`. -/
def postBrujula (st : Store) (now : Nat) (conductorId compass : JSVal) :
    PostResult Brujula × Store :=
  if !truthy conductorId || !isNumberVal compass then
    (.badRequest "conductorId y compass son requeridos", st)
  else
    match saveBrujula st now conductorId compass with
    | .ok (r, st') => (.created "Brújula guardada" r, st')
    | .error e => (.storeError e, st)

/-- Handler of `POST /ubicacion`: rejects with 400 when `conductorId` is
falsy or either coordinate is `=== undefined`; note it does not check the
coordinates' type. -/
def postUbicacion (st : Store) (now : Nat) (conductorId latitud longitud : JSVal) :
    PostResult Ubicacion × Store :=
  if !truthy conductorId || isUndef latitud || isUndef longitud then
    (.badRequest "conductorId, latitud y longitud son requeridos", st)
  else
    match saveUbicacion st now conductorId latitud longitud with
    | .ok (r, st') => (.created "Ubicación guardada" r, st')
    | .error e => (.storeError e, st)

/-- The `Ritmo.findOne({ conductorId }).sort({ createdAt: -1 })` lookup. -/
def findLatestRitmo (st : Store) (cid : String) : Option Ritmo :=
  findOneLatest (fun r => r.createdAt) (fun r => r.conductorId == cid) st.ritmos

/-- The `Brujula.findOne({ conductorId }).sort({ createdAt: -1 })` lookup. -/
def findLatestBrujula (st : Store) (cid : String) : Option Brujula :=
  findOneLatest (fun r => r.createdAt) (fun r => r.conductorId == cid) st.brujulas

/-- The `Ubicacion.findOne({ conductorId }).sort({ createdAt: -1 })` lookup. -/
def findLatestUbicacion (st : Store) (cid : String) : Option Ubicacion :=
  findOneLatest (fun r => r.createdAt) (fun r => r.conductorId == cid) st.ubicaciones

/-- Handler of `GET /ritmo/:conductorId/latest`. -/
def getRitmoLatest (st : Store) (cid : String) : GetResult Ritmo :=
  match findLatestRitmo st cid with
  | none => .notFound "Sin lecturas de ritmo"
  | some d => .ok d

/-- Handler of `GET /brujula/:conductorId/latest`. -/
def getBrujulaLatest (st : Store) (cid : String) : GetResult Brujula :=
  match findLatestBrujula st cid with
  | none => .notFound "Sin lecturas de brújula"
  | some d => .ok d

/-- Handler of `GET /ubicacion/:conductorId/latest`. -/
def getUbicacionLatest (st : Store) (cid : String) : GetResult Ubicacion :=
  match findLatestUbicacion st cid with
  | none => .notFound "Sin lecturas de ubicación"
  | some d => .ok d

/-- The composite body built by `GET /lectura/:conductorId/latest`:
per-kind value-plus-`fecha` pairs, `none` modelling the JSON `null`. -/
structure CombinedLectura where
  conductorId : String
  ritmo : Option (Int × Nat)
  brujula : Option (Int × Nat)
  ubicacion : Option (Int × Int × Nat)
deriving DecidableEq

/-- Handler of `GET /lectura/:conductorId/latest`: the three latest lookups
(run under `Promise.all` in the source), 404 when all three are absent,
otherwise the composite object with `null` for each absent kind. -/
def getLecturaLatest (st : Store) (cid : String) : GetResult CombinedLectura :=
  let ritmo := findLatestRitmo st cid
  let brujula := findLatestBrujula st cid
  let ubicacion := findLatestUbicacion st cid
  if ritmo.isNone && brujula.isNone && ubicacion.isNone then
    .notFound "No hay lecturas para este conductor"
  else
    .ok { conductorId := cid,
          ritmo := ritmo.map (fun r => (r.bpm, r.fecha)),
          brujula := brujula.map (fun b => (b.compass, b.fecha)),
          ubicacion := ubicacion.map (fun u => (u.latitud, u.longitud, u.fecha)) }

/-- The `{ total, data }` body of a `.../all` GET route. -/
structure ListResult (α : Type) where
  total : Nat
  data : List α
deriving DecidableEq

/-- Handler of `GET /conductor/all`: `find().sort({ createdAt: -1 })`. -/
def getConductorAll (st : Store) : ListResult Conductor :=
  let cs := sortByCreatedDesc (fun c => c.createdAt) st.conductores
  { total := cs.length, data := cs }

/-- Handler of `GET /ritmo/all`. -/
def getRitmoAll (st : Store) : ListResult Ritmo :=
  let ls := sortByCreatedDesc (fun r => r.createdAt) st.ritmos
  { total := ls.length, data := ls }

/-- Handler of `GET /brujula/all`. -/
def getBrujulaAll (st : Store) : ListResult Brujula :=
  let ls := sortByCreatedDesc (fun r => r.createdAt) st.brujulas
  { total := ls.length, data := ls }

/-- Handler of `GET /ubicacion/all`. -/
def getUbicacionAll (st : Store) : ListResult Ubicacion :=
  let ls := sortByCreatedDesc (fun r => r.createdAt) st.ubicaciones
  { total := ls.length, data := ls }

/-- The per-kind deleted counts answered by `DELETE /conductor/all`. -/
structure PurgeResult where
  message : String
  conductoresBorrados : Nat
  ritmosBorrados : Nat
  brujulaBorrados : Nat
  ubicacionBorrados : Nat
deriving DecidableEq

/-- Handler of `DELETE /conductor/all`: `deleteMany({})` on all four
collections, answering each `deletedCount`. -/
def deleteConductorAll (st : Store) : PurgeResult × Store :=
  ({ message := "Todos los conductores y lecturas han sido borrados",
     conductoresBorrados := st.conductores.length,
     ritmosBorrados := st.ritmos.length,
     brujulaBorrados := st.brujulas.length,
     ubicacionBorrados := st.ubicaciones.length },
   emptyStore)

/-- The body answered by `GET /health`. -/
structure HealthResp where
  status : String
  mongo : String
  uptime : Nat
  now : String
deriving DecidableEq

/-- Handler of `GET /health`: a pure function of the live
`mongoose.connection.readyState` (1 means connected), the process uptime
and the current time — it touches no collection. -/
def health (readyState : Nat) (uptime : Nat) (now : String) : HealthResp :=
  { status := "ok",
    mongo := if readyState == 1 then "connected" else "disconnected",
    uptime := uptime,
    now := now }

/-! Helper lemmas about the sort/lookup model and the success paths of the
POST handlers, shared by the claim theorems below. -/

theorem sortByCreatedDesc_perm {α : Type} (key : α → Nat) (l : List α) :
    List.Perm (sortByCreatedDesc key l) l :=
  List.perm_insertionSort _ l

theorem sortByCreatedDesc_sorted {α : Type} (key : α → Nat) (l : List α) :
    List.Sorted (createdDesc key) (sortByCreatedDesc key l) :=
  List.sorted_insertionSort _ l

theorem sortByCreatedDesc_eq_nil_iff {α : Type} (key : α → Nat) (l : List α) :
    sortByCreatedDesc key l = [] ↔ l = [] := by
  constructor
  · intro h
    have hp := sortByCreatedDesc_perm key l
    rw [h] at hp
    exact hp.symm.eq_nil
  · intro h
    subst h
    rfl

theorem sortByCreatedDesc_head_max {α : Type} (key : α → Nat) (l : List α) (r : α)
    (hr : r ∈ l) (hmax : ∀ x ∈ l, x ≠ r → key x < key r) :
    (sortByCreatedDesc key l).head? = some r := by
  cases hsl : sortByCreatedDesc key l with
  | nil =>
    exfalso
    have hnil : l = [] := (sortByCreatedDesc_eq_nil_iff key l).mp hsl
    subst hnil
    simp at hr
  | cons y ys =>
    have hp := sortByCreatedDesc_perm key l
    have hs := sortByCreatedDesc_sorted key l
    rw [hsl] at hp hs
    by_cases hyr : y = r
    · simp [hyr]
    · exfalso
      have hy : y ∈ l := hp.mem_iff.mp (List.mem_cons_self y ys)
      have hlt : key y < key r := hmax y hy hyr
      have hrm : r ∈ y :: ys := hp.mem_iff.mpr hr
      rcases List.mem_cons.mp hrm with h1 | h2
      · exact hyr h1.symm
      · have hle : key r ≤ key y := List.rel_of_sorted_cons hs r h2
        omega

theorem findOneLatest_eq_none_iff {α : Type} (key : α → Nat) (p : α → Bool)
    (l : List α) :
    findOneLatest key p l = none ↔ l.filter p = [] := by
  unfold findOneLatest
  rw [List.head?_eq_none_iff]
  exact sortByCreatedDesc_eq_nil_iff key (l.filter p)

theorem findOneLatest_eq_max {α : Type} (key : α → Nat) (p : α → Bool)
    (l : List α) (r : α) (hr : r ∈ l) (hp : p r = true)
    (hmax : ∀ x ∈ l, p x = true → x ≠ r → key x < key r) :
    findOneLatest key p l = some r := by
  unfold findOneLatest
  apply sortByCreatedDesc_head_max
  · exact List.mem_filter.mpr ⟨hr, hp⟩
  · intro x hx hxr
    have hx' := List.mem_filter.mp hx
    exact hmax x hx'.1 hx'.2 hxr

theorem trimString_empty : trimString "" = "" := rfl

theorem ne_empty_of_trim_ne_empty {s : String} (h : trimString s ≠ "") :
    s ≠ "" := by
  intro he
  subst he
  exact h trimString_empty

theorem postRitmo_ok (st : Store) (now : Nat) (cid : String) (b : Int)
    (h : cid ≠ "") (hb : 0 ≤ b) :
    postRitmo st now (.vstr cid) (.vnum b) =
      (.created "Ritmo guardado" { conductorId := cid, bpm := b, fecha := now, createdAt := now },
       { st with ritmos := st.ritmos ++
          [{ conductorId := cid, bpm := b, fecha := now, createdAt := now }] }) := by
  have hb' : ¬b < 0 := by omega
  simp [postRitmo, saveRitmo, castString, castNumber, truthy, isNumberVal, h, hb']

theorem postBrujula_ok (st : Store) (now : Nat) (cid : String) (c : Int)
    (h : cid ≠ "") :
    postBrujula st now (.vstr cid) (.vnum c) =
      (.created "Brújula guardada" { conductorId := cid, compass := c, fecha := now, createdAt := now },
       { st with brujulas := st.brujulas ++
          [{ conductorId := cid, compass := c, fecha := now, createdAt := now }] }) := by
  simp [postBrujula, saveBrujula, castString, castNumber, truthy, isNumberVal, h]

theorem postUbicacion_ok (st : Store) (now : Nat) (cid : String) (la lo : Int)
    (h : cid ≠ "") :
    postUbicacion st now (.vstr cid) (.vnum la) (.vnum lo) =
      (.created "Ubicación guardada"
        { conductorId := cid, latitud := la, longitud := lo, fecha := now, createdAt := now },
       { st with ubicaciones := st.ubicaciones ++
          [{ conductorId := cid, latitud := la, longitud := lo, fecha := now, createdAt := now }] }) := by
  simp [postUbicacion, saveUbicacion, castString, castNumber, truthy, isUndef, h]

theorem postConductor_ok (st : Store) (now : Nat) (n sx t enf : String) (e : Int)
    (hn : trimString n ≠ "") (he : 0 < e)
    (hsx : sx = "Masculino" ∨ sx = "Femenino") (ht : t ≠ "") (henf : enf ≠ "") :
    postConductor st now (.vstr n) (.vnum e) (.vstr sx) (.vstr t) (.vstr enf) =
      (.created "Conductor creado"
        { nombre := trimString n, edad := e, sexo := sx, turno := t,
          enfermedad := enf, createdAt := now },
       { st with conductores := st.conductores ++
          [{ nombre := trimString n, edad := e, sexo := sx, turno := t,
             enfermedad := enf, createdAt := now }] }) := by
  have hn' : n ≠ "" := ne_empty_of_trim_ne_empty hn
  have he0 : (e : Int) ≠ 0 := by omega
  have he' : ¬e < 0 := by omega
  have hsx' : ¬(sx ≠ "Masculino" ∧ sx ≠ "Femenino") := by
    rcases hsx with h | h <;> simp [h]
  have hsxne : sx ≠ "" := by
    rcases hsx with h | h <;> simp [h]
  simp [postConductor, saveConductor, castString, castNumber, truthy,
        hn, hn', he0, he', hsx', hsxne, ht, henf]

/-- Claim C1: for each of the three reading kinds, a POST with a non-empty
`conductorId` and a numeric value of exactly 0 (`bpm = 0`, `compass = 0`,
or `latitud = 0` and `longitud = 0`) passes validation and succeeds with
201, persisting the reading: zero is treated as present and valid, not as
missing. -/
theorem zero_value_readings_accepted (st : Store) (now : Nat) (cid : String)
    (h : cid ≠ "") :
    (postRitmo st now (.vstr cid) (.vnum 0)).1 =
        .created "Ritmo guardado"
          { conductorId := cid, bpm := 0, fecha := now, createdAt := now } ∧
    (postRitmo st now (.vstr cid) (.vnum 0)).1.status = 201 ∧
    (postBrujula st now (.vstr cid) (.vnum 0)).1 =
        .created "Brújula guardada"
          { conductorId := cid, compass := 0, fecha := now, createdAt := now } ∧
    (postBrujula st now (.vstr cid) (.vnum 0)).1.status = 201 ∧
    (postUbicacion st now (.vstr cid) (.vnum 0) (.vnum 0)).1 =
        .created "Ubicación guardada"
          { conductorId := cid, latitud := 0, longitud := 0, fecha := now, createdAt := now } ∧
    (postUbicacion st now (.vstr cid) (.vnum 0) (.vnum 0)).1.status = 201 := by
  have h1 := postRitmo_ok st now cid 0 h (by omega)
  have h2 := postBrujula_ok st now cid 0 h
  have h3 := postUbicacion_ok st now cid 0 0 h
  refine ⟨?_, ?_, ?_, ?_, ?_, ?_⟩ <;> simp [h1, h2, h3, PostResult.status]

/-- Witness for claim C1 at `cid = "D1"`, `now = 5`, the empty store. -/
theorem zero_value_readings_accepted_witness :
    ("D1" : String) ≠ "" ∧
    (postRitmo emptyStore 5 (.vstr "D1") (.vnum 0)).1.status = 201 ∧
    (postBrujula emptyStore 5 (.vstr "D1") (.vnum 0)).1.status = 201 ∧
    (postUbicacion emptyStore 5 (.vstr "D1") (.vnum 0) (.vnum 0)).1.status = 201 := by
  have hne : ("D1" : String) ≠ "" := by decide
  have h := zero_value_readings_accepted emptyStore 5 "D1" hne
  exact ⟨hne, h.2.1, h.2.2.2.1, h.2.2.2.2.2⟩

/-- Claim C2 counterexample: the driver payload `{nombre := "Ana",
edad := 0, sexo := "Femenino", turno := "Noche", enfermedad := "Ninguna"}`
has all five fields present and satisfies the data model (`edad = 0 ≥ 0`),
yet `POST /conductor` answers 400, because the handler tests the fields
with JS truthiness and `0` is falsy. -/
theorem createDriver_age_zero_rejected :
    (postConductor emptyStore 0 (.vstr "Ana") (.vnum 0) (.vstr "Femenino")
        (.vstr "Noche") (.vstr "Ninguna")).1 =
      .badRequest "Todos los campos son requeridos" ∧
    (postConductor emptyStore 0 (.vstr "Ana") (.vnum 0) (.vstr "Femenino")
        (.vstr "Noche") (.vstr "Ninguna")).1.status = 400 :=
  ⟨by decide, by decide⟩

/-- Claim C2 (amended): `POST /conductor` answers 400 exactly when one of
the five destructured fields is falsy under JS truthiness — which rejects
`edad = 0` just like a missing or empty field — and for every payload
whose five fields are truthy and satisfy the schema (non-empty trimmed
`nombre`, `edad > 0`, `sexo` in the two-value enumeration, non-empty
`turno` and `enfermedad`) it persists the new driver and answers 201 with
the record, which carries the creation timestamp. -/
theorem createDriver_validation (st : Store) (now : Nat)
    (nombre edad sexo turno enfermedad : JSVal) :
    ((postConductor st now nombre edad sexo turno enfermedad).1.status = 400 ↔
      (truthy nombre && truthy edad && truthy sexo && truthy turno &&
        truthy enfermedad) = false) ∧
    ∀ (n sx t enf : String) (e : Int), trimString n ≠ "" → 0 < e →
      (sx = "Masculino" ∨ sx = "Femenino") → t ≠ "" → enf ≠ "" →
      (postConductor st now (.vstr n) (.vnum e) (.vstr sx) (.vstr t) (.vstr enf)).1 =
        .created "Conductor creado"
          { nombre := trimString n, edad := e, sexo := sx, turno := t,
            enfermedad := enf, createdAt := now } ∧
      (postConductor st now (.vstr n) (.vnum e) (.vstr sx) (.vstr t) (.vstr enf)).2 =
        { st with conductores := st.conductores ++
            [{ nombre := trimString n, edad := e, sexo := sx, turno := t,
               enfermedad := enf, createdAt := now }] } := by
  constructor
  · unfold postConductor
    cases hb : (!truthy nombre || !truthy edad || !truthy sexo || !truthy turno ||
        !truthy enfermedad) with
    | false =>
      cases hsave : saveConductor st now nombre edad sexo turno enfermedad with
      | ok v =>
        obtain ⟨c, st'⟩ := v
        simp only [Bool.false_eq_true, if_false, hsave, PostResult.status]
        constructor
        · intro habs
          omega
        · intro habs
          revert hb habs
          cases truthy nombre <;> cases truthy edad <;> cases truthy sexo <;>
            cases truthy turno <;> cases truthy enfermedad <;> simp
      | error e =>
        simp only [Bool.false_eq_true, if_false, hsave, PostResult.status]
        constructor
        · intro habs
          omega
        · intro habs
          revert hb habs
          cases truthy nombre <;> cases truthy edad <;> cases truthy sexo <;>
            cases truthy turno <;> cases truthy enfermedad <;> simp
    | true =>
      simp only [if_true, PostResult.status, true_iff]
      revert hb
      cases truthy nombre <;> cases truthy edad <;> cases truthy sexo <;>
        cases truthy turno <;> cases truthy enfermedad <;> simp
  · intro n sx t enf e hn he hsx ht henf
    rw [postConductor_ok st now n sx t enf e hn he hsx ht henf]
    exact ⟨rfl, rfl⟩

/-- Witness for the amended claim C2 at a concrete valid payload. -/
theorem createDriver_validation_witness :
    trimString "Ana" ≠ "" ∧ (0 : Int) < 30 ∧
    (postConductor emptyStore 7 (.vstr "Ana") (.vnum 30) (.vstr "Femenino")
        (.vstr "Noche") (.vstr "Ninguna")).1 =
      .created "Conductor creado"
        { nombre := trimString "Ana", edad := 30, sexo := "Femenino",
          turno := "Noche", enfermedad := "Ninguna", createdAt := 7 } := by
  have h := createDriver_validation emptyStore 7 (.vstr "Ana") (.vnum 30)
    (.vstr "Femenino") (.vstr "Noche") (.vstr "Ninguna")
  exact ⟨by decide, by decide,
    (h.2 "Ana" "Femenino" "Noche" "Ninguna" 30 (by decide) (by decide)
      (Or.inr rfl) (by decide) (by decide)).1⟩

/-- Claim C3: `GET /lectura/:conductorId/latest` answers 404 exactly when
the driver has no heart-rate, no compass and no location reading;
otherwise it answers the composite object carrying the `conductorId`, in
which each of `ritmo`, `brujula`, `ubicacion` is either the latest
value-plus-timestamp pair of that kind or the explicit absent marker. -/
theorem latestCombined_spec (st : Store) (cid : String) :
    ((getLecturaLatest st cid).status = 404 ↔
      (findLatestRitmo st cid = none ∧ findLatestBrujula st cid = none ∧
        findLatestUbicacion st cid = none)) ∧
    (¬(findLatestRitmo st cid = none ∧ findLatestBrujula st cid = none ∧
        findLatestUbicacion st cid = none) →
      getLecturaLatest st cid =
        .ok { conductorId := cid,
              ritmo := (findLatestRitmo st cid).map (fun r => (r.bpm, r.fecha)),
              brujula := (findLatestBrujula st cid).map (fun b => (b.compass, b.fecha)),
              ubicacion := (findLatestUbicacion st cid).map
                (fun u => (u.latitud, u.longitud, u.fecha)) }) := by
  cases hr : findLatestRitmo st cid <;> cases hb : findLatestBrujula st cid <;>
    cases hu : findLatestUbicacion st cid <;>
      simp [getLecturaLatest, hr, hb, hu, GetResult.status]

/-- Witness for claim C3: a driver with only a heart-rate reading gets that
reading under `ritmo` and the absent marker for the other two kinds. -/
theorem latestCombined_witness :
    ¬(findLatestRitmo
        { conductores := [],
          ritmos := [{ conductorId := "D1", bpm := 72, fecha := 5, createdAt := 5 }],
          brujulas := [], ubicaciones := [] } "D1" = none ∧
      findLatestBrujula
        { conductores := [],
          ritmos := [{ conductorId := "D1", bpm := 72, fecha := 5, createdAt := 5 }],
          brujulas := [], ubicaciones := [] } "D1" = none ∧
      findLatestUbicacion
        { conductores := [],
          ritmos := [{ conductorId := "D1", bpm := 72, fecha := 5, createdAt := 5 }],
          brujulas := [], ubicaciones := [] } "D1" = none) ∧
    getLecturaLatest
        { conductores := [],
          ritmos := [{ conductorId := "D1", bpm := 72, fecha := 5, createdAt := 5 }],
          brujulas := [], ubicaciones := [] } "D1" =
      .ok { conductorId := "D1", ritmo := some (72, 5), brujula := none,
            ubicacion := none } := by
  have hne : ¬(findLatestRitmo
      { conductores := [],
        ritmos := [{ conductorId := "D1", bpm := 72, fecha := 5, createdAt := 5 }],
        brujulas := [], ubicaciones := [] } "D1" = none ∧
    findLatestBrujula
      { conductores := [],
        ritmos := [{ conductorId := "D1", bpm := 72, fecha := 5, createdAt := 5 }],
        brujulas := [], ubicaciones := [] } "D1" = none ∧
    findLatestUbicacion
      { conductores := [],
        ritmos := [{ conductorId := "D1", bpm := 72, fecha := 5, createdAt := 5 }],
        brujulas := [], ubicaciones := [] } "D1" = none) := by decide
  refine ⟨hne, ?_⟩
  have h := (latestCombined_spec
    { conductores := [],
      ritmos := [{ conductorId := "D1", bpm := 72, fecha := 5, createdAt := 5 }],
      brujulas := [], ubicaciones := [] } "D1").2 hne
  rw [h]
  decide

/-- Claim C4: for each reading kind, the per-driver latest lookup answers
404 exactly when the driver has no readings of that kind; with readings it
answers the single most recent record for that driver, and after exactly
one reading is recorded for a driver who had none it answers exactly that
reading. -/
theorem latestReading_spec (st : Store) (cid : String) :
    (((getRitmoLatest st cid).status = 404 ↔
        st.ritmos.filter (fun r => r.conductorId == cid) = []) ∧
      (∀ r : Ritmo, r ∈ st.ritmos → r.conductorId = cid →
        (∀ x ∈ st.ritmos, x.conductorId = cid → x ≠ r → x.createdAt < r.createdAt) →
        getRitmoLatest st cid = .ok r) ∧
      (∀ (now : Nat) (bpm : Int), 0 ≤ bpm → cid ≠ "" →
        st.ritmos.filter (fun r => r.conductorId == cid) = [] →
        getRitmoLatest (postRitmo st now (.vstr cid) (.vnum bpm)).2 cid =
          .ok { conductorId := cid, bpm := bpm, fecha := now, createdAt := now })) ∧
    (((getBrujulaLatest st cid).status = 404 ↔
        st.brujulas.filter (fun r => r.conductorId == cid) = []) ∧
      (∀ r : Brujula, r ∈ st.brujulas → r.conductorId = cid →
        (∀ x ∈ st.brujulas, x.conductorId = cid → x ≠ r → x.createdAt < r.createdAt) →
        getBrujulaLatest st cid = .ok r) ∧
      (∀ (now : Nat) (c : Int), cid ≠ "" →
        st.brujulas.filter (fun r => r.conductorId == cid) = [] →
        getBrujulaLatest (postBrujula st now (.vstr cid) (.vnum c)).2 cid =
          .ok { conductorId := cid, compass := c, fecha := now, createdAt := now })) ∧
    (((getUbicacionLatest st cid).status = 404 ↔
        st.ubicaciones.filter (fun r => r.conductorId == cid) = []) ∧
      (∀ r : Ubicacion, r ∈ st.ubicaciones → r.conductorId = cid →
        (∀ x ∈ st.ubicaciones, x.conductorId = cid → x ≠ r → x.createdAt < r.createdAt) →
        getUbicacionLatest st cid = .ok r) ∧
      (∀ (now : Nat) (la lo : Int), cid ≠ "" →
        st.ubicaciones.filter (fun r => r.conductorId == cid) = [] →
        getUbicacionLatest (postUbicacion st now (.vstr cid) (.vnum la) (.vnum lo)).2 cid =
          .ok { conductorId := cid, latitud := la, longitud := lo, fecha := now,
                createdAt := now })) := by
  refine ⟨⟨?_, ?_, ?_⟩, ⟨?_, ?_, ?_⟩, ⟨?_, ?_, ?_⟩⟩
  · rw [← findOneLatest_eq_none_iff (fun r : Ritmo => r.createdAt)
      (fun r => r.conductorId == cid) st.ritmos]
    unfold getRitmoLatest findLatestRitmo
    cases hf : findOneLatest (fun r : Ritmo => r.createdAt)
        (fun r => r.conductorId == cid) st.ritmos <;>
      simp [GetResult.status, hf]
  · intro r hrmem hrcid hmax
    have hlat : findLatestRitmo st cid = some r := by
      unfold findLatestRitmo
      apply findOneLatest_eq_max
      · exact hrmem
      · simpa using hrcid
      · intro x hx hpx hxr
        exact hmax x hx (by simpa using hpx) hxr
    simp [getRitmoLatest, hlat]
  · intro now bpm hb hcid hfilter
    rw [postRitmo_ok st now cid bpm hcid hb]
    unfold getRitmoLatest findLatestRitmo findOneLatest
    simp only [List.filter_append, hfilter]
    simp [sortByCreatedDesc]
  · rw [← findOneLatest_eq_none_iff (fun r : Brujula => r.createdAt)
      (fun r => r.conductorId == cid) st.brujulas]
    unfold getBrujulaLatest findLatestBrujula
    cases hf : findOneLatest (fun r : Brujula => r.createdAt)
        (fun r => r.conductorId == cid) st.brujulas <;>
      simp [GetResult.status, hf]
  · intro r hrmem hrcid hmax
    have hlat : findLatestBrujula st cid = some r := by
      unfold findLatestBrujula
      apply findOneLatest_eq_max
      · exact hrmem
      · simpa using hrcid
      · intro x hx hpx hxr
        exact hmax x hx (by simpa using hpx) hxr
    simp [getBrujulaLatest, hlat]
  · intro now c hcid hfilter
    rw [postBrujula_ok st now cid c hcid]
    unfold getBrujulaLatest findLatestBrujula findOneLatest
    simp only [List.filter_append, hfilter]
    simp [sortByCreatedDesc]
  · rw [← findOneLatest_eq_none_iff (fun r : Ubicacion => r.createdAt)
      (fun r => r.conductorId == cid) st.ubicaciones]
    unfold getUbicacionLatest findLatestUbicacion
    cases hf : findOneLatest (fun r : Ubicacion => r.createdAt)
        (fun r => r.conductorId == cid) st.ubicaciones <;>
      simp [GetResult.status, hf]
  · intro r hrmem hrcid hmax
    have hlat : findLatestUbicacion st cid = some r := by
      unfold findLatestUbicacion
      apply findOneLatest_eq_max
      · exact hrmem
      · simpa using hrcid
      · intro x hx hpx hxr
        exact hmax x hx (by simpa using hpx) hxr
    simp [getUbicacionLatest, hlat]
  · intro now la lo hcid hfilter
    rw [postUbicacion_ok st now cid la lo hcid]
    unfold getUbicacionLatest findLatestUbicacion findOneLatest
    simp only [List.filter_append, hfilter]
    simp [sortByCreatedDesc]

/-- Witness for claim C4: an empty store, then one heart-rate reading for
`"D1"`, after which the latest lookup answers exactly that reading. -/
theorem latestReading_witness :
    (0 : Int) ≤ 72 ∧ ("D1" : String) ≠ "" ∧
    emptyStore.ritmos.filter (fun r => r.conductorId == "D1") = [] ∧
    getRitmoLatest (postRitmo emptyStore 5 (.vstr "D1") (.vnum 72)).2 "D1" =
      .ok { conductorId := "D1", bpm := 72, fecha := 5, createdAt := 5 } := by
  refine ⟨by decide, by decide, by decide, ?_⟩
  exact ((latestReading_spec emptyStore "D1").1.2.2 5 72 (by decide) (by decide)
    (by decide))

/-- Claim C5: `DELETE /conductor/all` deletes every record of all four
kinds unconditionally and answers the per-kind deleted counts; afterwards
every list route answers the empty collection with `total = 0`. -/
theorem purgeAll_spec (st : Store) :
    (deleteConductorAll st).1 =
      { message := "Todos los conductores y lecturas han sido borrados",
        conductoresBorrados := st.conductores.length,
        ritmosBorrados := st.ritmos.length,
        brujulaBorrados := st.brujulas.length,
        ubicacionBorrados := st.ubicaciones.length } ∧
    (deleteConductorAll st).2 = emptyStore ∧
    getConductorAll (deleteConductorAll st).2 = { total := 0, data := [] } ∧
    getRitmoAll (deleteConductorAll st).2 = { total := 0, data := [] } ∧
    getBrujulaAll (deleteConductorAll st).2 = { total := 0, data := [] } ∧
    getUbicacionAll (deleteConductorAll st).2 = { total := 0, data := [] } :=
  ⟨rfl, rfl, rfl, rfl, rfl, rfl⟩

/-- Claim C6 counterexample: `POST /ubicacion` with `conductorId = "D1"`,
`latitud = "abc"` (a string — present but of the wrong type) and
`longitud = 0` is not rejected with 400 by the handler; it reaches the
store, whose cast failure surfaces as 500. -/
theorem locationWrongType_cex :
    (postUbicacion emptyStore 0 (.vstr "D1") (.vstr "abc") (.vnum 0)).1.status = 500 ∧
    (postUbicacion emptyStore 0 (.vstr "D1") (.vstr "abc") (.vnum 0)).1.status ≠ 400 :=
  ⟨by decide, by decide⟩

/-- Claim C6 (amended): `POST /ritmo` and `POST /brujula` reject a present
but non-number value with 400, but `POST /ubicacion` only checks that
`latitud` and `longitud` are not `undefined`, so a wrong-typed (string)
coordinate passes the handler's validation and, when the store's number
cast fails, the request fails with 500 — a store error, not a
`ValidationError`. -/
theorem wrongTypeValue_handling (st : Store) (now : Nat) (cid : String)
    (h : cid ≠ "") :
    (∀ v : JSVal, isNumberVal v = false →
      (postRitmo st now (.vstr cid) v).1.status = 400 ∧
      (postBrujula st now (.vstr cid) v).1.status = 400) ∧
    (∀ s : String, intOfChars s.data = none → ∀ lon : JSVal,
      isUndef lon = false →
      (postUbicacion st now (.vstr cid) (.vstr s) lon).1.status = 500) := by
  constructor
  · intro v hv
    constructor <;>
      simp [postRitmo, postBrujula, truthy, h, hv, PostResult.status]
  · intro s hs lon hlon
    cases lon <;>
      simp_all [postUbicacion, saveUbicacion, truthy, isUndef, castString,
        castNumber, h, hs, PostResult.status]

/-- Witness for the amended claim C6 at concrete inputs. -/
theorem wrongTypeValue_handling_witness :
    ("D1" : String) ≠ "" ∧
    isNumberVal (.vstr "x") = false ∧
    intOfChars ("abc".data) = none ∧
    isUndef (.vnum 0) = false ∧
    (postRitmo emptyStore 0 (.vstr "D1") (.vstr "x")).1.status = 400 ∧
    (postUbicacion emptyStore 0 (.vstr "D1") (.vstr "abc") (.vnum 0)).1.status = 500 := by
  have h := wrongTypeValue_handling emptyStore 0 "D1" (by decide)
  exact ⟨by decide, by decide, by decide, by decide,
    (h.1 (.vstr "x") (by decide)).1,
    h.2 "abc" (by decide) (.vnum 0) (by decide)⟩

/-- Claim C7: `GET /health` always answers `status = "ok"`, passes the
process uptime and current time through unchanged, and its connectivity
field says `"connected"` exactly when the live store connection state
(`mongoose.connection.readyState`) equals 1, `"disconnected"` otherwise;
the handler is a pure function of these inputs and touches no collection. -/
theorem health_spec (readyState uptime : Nat) (now : String) :
    (health readyState uptime now).status = "ok" ∧
    (health readyState uptime now).uptime = uptime ∧
    (health readyState uptime now).now = now ∧
    ((health readyState uptime now).mongo = "connected" ↔ readyState = 1) ∧
    ((health readyState uptime now).mongo = "disconnected" ↔ readyState ≠ 1) := by
  unfold health
  by_cases h : readyState = 1 <;> simp [h]

/-- Claim C8: every list route answers all stored records of its kind,
ordered by creation time with the most recent first; and after a valid
`POST /conductor` whose timestamp is newer than every stored driver's, the
created record is the first element of `GET /conductor/all`. -/
theorem list_ordering_spec (st : Store) :
    ((getConductorAll st).total = st.conductores.length ∧
      List.Perm (getConductorAll st).data st.conductores ∧
      List.Sorted (createdDesc (fun c : Conductor => c.createdAt))
        (getConductorAll st).data) ∧
    ((getRitmoAll st).total = st.ritmos.length ∧
      List.Perm (getRitmoAll st).data st.ritmos ∧
      List.Sorted (createdDesc (fun r : Ritmo => r.createdAt))
        (getRitmoAll st).data) ∧
    ((getBrujulaAll st).total = st.brujulas.length ∧
      List.Perm (getBrujulaAll st).data st.brujulas ∧
      List.Sorted (createdDesc (fun r : Brujula => r.createdAt))
        (getBrujulaAll st).data) ∧
    ((getUbicacionAll st).total = st.ubicaciones.length ∧
      List.Perm (getUbicacionAll st).data st.ubicaciones ∧
      List.Sorted (createdDesc (fun r : Ubicacion => r.createdAt))
        (getUbicacionAll st).data) ∧
    (∀ (now : Nat) (n sx t enf : String) (e : Int), trimString n ≠ "" → 0 < e →
      (sx = "Masculino" ∨ sx = "Femenino") → t ≠ "" → enf ≠ "" →
      (∀ c ∈ st.conductores, c.createdAt < now) →
      (getConductorAll
          (postConductor st now (.vstr n) (.vnum e) (.vstr sx) (.vstr t) (.vstr enf)).2).data.head? =
        some { nombre := trimString n, edad := e, sexo := sx, turno := t,
               enfermedad := enf, createdAt := now }) := by
  refine ⟨⟨?_, ?_, ?_⟩, ⟨?_, ?_, ?_⟩, ⟨?_, ?_, ?_⟩, ⟨?_, ?_, ?_⟩, ?_⟩
  · simp [getConductorAll, sortByCreatedDesc, List.length_insertionSort]
  · exact sortByCreatedDesc_perm _ st.conductores
  · exact sortByCreatedDesc_sorted _ st.conductores
  · simp [getRitmoAll, sortByCreatedDesc, List.length_insertionSort]
  · exact sortByCreatedDesc_perm _ st.ritmos
  · exact sortByCreatedDesc_sorted _ st.ritmos
  · simp [getBrujulaAll, sortByCreatedDesc, List.length_insertionSort]
  · exact sortByCreatedDesc_perm _ st.brujulas
  · exact sortByCreatedDesc_sorted _ st.brujulas
  · simp [getUbicacionAll, sortByCreatedDesc, List.length_insertionSort]
  · exact sortByCreatedDesc_perm _ st.ubicaciones
  · exact sortByCreatedDesc_sorted _ st.ubicaciones
  · intro now n sx t enf e hn he hsx ht henf hnew
    rw [postConductor_ok st now n sx t enf e hn he hsx ht henf]
    unfold getConductorAll
    apply sortByCreatedDesc_head_max
    · exact List.mem_append.mpr (Or.inr (List.mem_singleton.mpr rfl))
    · intro x hx hxc
      rcases List.mem_append.mp hx with hxl | hxr
      · exact hnew x hxl
      · exact absurd (List.mem_singleton.mp hxr) hxc

/-- Witness for claim C8: a fresh driver posted into the empty store shows
up first in the listing. -/
theorem list_ordering_witness :
    trimString "Ana" ≠ "" ∧ (0 : Int) < 30 ∧
    (∀ c ∈ emptyStore.conductores, c.createdAt < 7) ∧
    (getConductorAll
        (postConductor emptyStore 7 (.vstr "Ana") (.vnum 30) (.vstr "Femenino")
          (.vstr "Noche") (.vstr "Ninguna")).2).data.head? =
      some { nombre := trimString "Ana", edad := 30, sexo := "Femenino",
             turno := "Noche", enfermedad := "Ninguna", createdAt := 7 } := by
  refine ⟨by decide, by decide, by decide, ?_⟩
  exact (list_ordering_spec emptyStore).2.2.2.2 7 "Ana" "Femenino" "Noche"
    "Ninguna" 30 (by decide) (by decide) (Or.inr rfl) (by decide) (by decide)
    (by decide)

/-- Claim C10: the data model's range and enumeration constraints are not
checked by the handlers: a negative `bpm` on `POST /ritmo`, or a non-empty
`sexo` outside the two-value enumeration on `POST /conductor`, passes the
handler's presence/type validation (no 400) and is rejected only at the
store layer, surfacing as 500 with the store's message. -/
theorem schema_constraints_at_store_only (st : Store) (now : Nat) (cid : String)
    (h : cid ≠ "") :
    (∀ b : Int, b < 0 →
      (postRitmo st now (.vstr cid) (.vnum b)).1 =
        .storeError "Ritmo validation failed: bpm is less than minimum" ∧
      (postRitmo st now (.vstr cid) (.vnum b)).1.status = 500) ∧
    (∀ (n t enf sx : String) (e : Int), trimString n ≠ "" → 0 < e → t ≠ "" →
      enf ≠ "" → sx ≠ "" → sx ≠ "Masculino" → sx ≠ "Femenino" →
      (postConductor st now (.vstr n) (.vnum e) (.vstr sx) (.vstr t) (.vstr enf)).1 =
        .storeError "Conductor validation failed: sexo is not a valid enum value" ∧
      (postConductor st now (.vstr n) (.vnum e) (.vstr sx) (.vstr t) (.vstr enf)).1.status = 500) := by
  constructor
  · intro b hb
    constructor <;>
      simp [postRitmo, saveRitmo, castString, castNumber, truthy, isNumberVal,
        h, hb, PostResult.status]
  · intro n t enf sx e hn he ht henf hsx hsxM hsxF
    have hn' : n ≠ "" := ne_empty_of_trim_ne_empty hn
    have he0 : (e : Int) ≠ 0 := by omega
    have he' : ¬e < 0 := by omega
    constructor <;>
      simp [postConductor, saveConductor, castString, castNumber, truthy,
        hn, hn', he0, he', ht, henf, hsx, hsxM, hsxF, PostResult.status]

/-- Witness for claim C10 at concrete out-of-range and out-of-enum inputs. -/
theorem schema_constraints_witness :
    ("D1" : String) ≠ "" ∧ (-5 : Int) < 0 ∧
    (postRitmo emptyStore 3 (.vstr "D1") (.vnum (-5))).1.status = 500 ∧
    (postConductor emptyStore 3 (.vstr "Ana") (.vnum 30) (.vstr "Otro")
        (.vstr "Noche") (.vstr "Ninguna")).1.status = 500 := by
  have h := schema_constraints_at_store_only emptyStore 3 "D1" (by decide)
  exact ⟨by decide, by decide, (h.1 (-5) (by decide)).2,
    (h.2 "Ana" "Noche" "Ninguna" "Otro" 30 (by decide) (by decide) (by decide)
      (by decide) (by decide) (by decide) (by decide)).2⟩

end SegundoPlano
